import Mathlib

/-!
Shallow embedding of `src/src/main.rs` (a Bevy render-graph example that
draws a single triangle from a fixed 3-vertex buffer).

Pure data (descriptors, buffers, byte contents) is modelled directly.
GPU objects that the host API hands back (buffers, bind groups, layouts)
carry a fresh numeric id drawn from a device counter.  Rust panics
(`unwrap`, `assert!`, missing `world.resource`) are modelled by an
explicit `panicked` outcome.  `f32` values never take part in arithmetic
in this program — they are only stored — so they are modelled by their
IEEE-754 binary32 bit pattern, together with an exact decoder into `ℚ`.
-/

/-- An `f32` value, represented by its IEEE-754 binary32 bit pattern
(a natural number below `2^32`).  The program only stores such values
into a vertex buffer; it never computes with them. -/
structure F32 where
  bits : Nat
deriving DecidableEq, Repr

/-- Exact value of an IEEE-754 binary32 bit pattern as a rational number.
NaN and the infinities (exponent field 255) are mapped to 0; the program
never uses them.  For a normal number the value is
`(-1)^s * (1 + m/2^23) * 2^(e-127) = (-1)^s * (2^23 + m) * 2^e / 2^150`,
and for a subnormal `(-1)^s * (m/2^23) * 2^(-126) = (-1)^s * 2*m / 2^150`. -/
def F32.toRat (f : F32) : ℚ :=
  let s : Nat := f.bits / 2 ^ 31
  let e : Nat := f.bits / 2 ^ 23 % 2 ^ 8
  let m : Nat := f.bits % 2 ^ 23
  let sign : ℚ := if s = 1 then -1 else 1
  if e = 255 then 0
  else if e = 0 then sign * (2 * (m : ℚ)) / 2 ^ 150
  else sign * (((2 ^ 23 + m : Nat) : ℚ) * 2 ^ e) / 2 ^ 150

/-- The bit pattern of `-1.0f32` (`0xBF800000`). -/
def f32NegOne : F32 := ⟨0xBF800000⟩

/-- The bit pattern of `1.0f32` (`0x3F800000`). -/
def f32One : F32 := ⟨0x3F800000⟩

/-- Little-endian byte serialization of an `f32` (as stored in memory on
every platform the program targets). -/
def F32.leBytes (f : F32) : List Nat :=
  [f.bits % 256, f.bits / 256 % 256, f.bits / 65536 % 256, f.bits / 16777216 % 256]

/-- `bevy::math::Vec2`: a pair of `f32` components. -/
structure Vec2 where
  x : F32
  y : F32
deriving DecidableEq, Repr

/-- `Vec2::new`. -/
def Vec2.new (x y : F32) : Vec2 := ⟨x, y⟩

/-- The in-memory bytes of a `Vec2` (`x` then `y`, little-endian). -/
def Vec2.bytes (v : Vec2) : List Nat := v.x.leBytes ++ v.y.leBytes

/-- `bytemuck::cast_slice` on a slice of `Vec2`: the concatenated raw
bytes of the vertices. -/
def castSlice (vs : List Vec2) : List Nat := (vs.map Vec2.bytes).flatten

/-- `wgpu::PrimitiveTopology` (the variants relevant here). -/
inductive PrimitiveTopology where
  | PointList
  | LineList
  | LineStrip
  | TriangleList
  | TriangleStrip
deriving DecidableEq, Repr

/-- `wgpu::FrontFace`. -/
inductive FrontFace where
  | Ccw
  | Cw
deriving DecidableEq, Repr

/-- `wgpu::PolygonMode`. -/
inductive PolygonMode where
  | Fill
  | Line
  | Point
deriving DecidableEq, Repr

/-- `wgpu::PrimitiveState`. -/
structure PrimitiveState where
  topology : PrimitiveTopology
  strip_index_format : Option Nat
  front_face : FrontFace
  cull_mode : Option Nat
  unclipped_depth : Bool
  polygon_mode : PolygonMode
  conservative : Bool
deriving DecidableEq, Repr

/-- `PrimitiveState::default()`: `TriangleList` topology and all other
fields at their defaults. -/
def PrimitiveState.default : PrimitiveState :=
  { topology := .TriangleList
    strip_index_format := none
    front_face := .Ccw
    cull_mode := none
    unclipped_depth := false
    polygon_mode := .Fill
    conservative := false }

/-- `wgpu::VertexFormat` (the variants relevant here). -/
inductive VertexFormat where
  | Float32
  | Float32x2
  | Float32x3
  | Float32x4
deriving DecidableEq, Repr

/-- `wgpu::VertexStepMode`. -/
inductive VertexStepMode where
  | Vertex
  | Instance
deriving DecidableEq, Repr

/-- `wgpu::VertexAttribute`. -/
structure VertexAttribute where
  format : VertexFormat
  offset : Nat
  shader_location : Nat
deriving DecidableEq, Repr

/-- `bevy::render_resource::VertexBufferLayout`. -/
structure VertexBufferLayout where
  array_stride : Nat
  step_mode : VertexStepMode
  attributes : List VertexAttribute
deriving DecidableEq, Repr

/-- `bevy::render_resource::VertexState`.  The shader is an asset handle,
modelled by a numeric id. -/
structure VertexState where
  shader : Nat
  entry_point : String
  shader_defs : List String
  buffers : List VertexBufferLayout
deriving DecidableEq, Repr

/-- `wgpu::TextureFormat` (the variants relevant here). -/
inductive TextureFormat where
  | Rgba8UnormSrgb
  | Bgra8UnormSrgb
deriving DecidableEq, Repr

/-- `TextureFormat::bevy_default()`: the swapchain-compatible default
format chosen by the engine for the platform. -/
def TextureFormat.bevy_default : TextureFormat := .Rgba8UnormSrgb

/-- `wgpu::BlendState` (only the `REPLACE` constant is used here). -/
inductive BlendState where
  | REPLACE
deriving DecidableEq, Repr

/-- `wgpu::ColorWrites::ALL` (bitmask with all four channels enabled). -/
def ColorWrites.ALL : Nat := 0xF

/-- `wgpu::ColorTargetState`. -/
structure ColorTargetState where
  format : TextureFormat
  blend : Option BlendState
  write_mask : Nat
deriving DecidableEq, Repr

/-- `bevy::render_resource::FragmentState`. -/
structure FragmentState where
  shader : Nat
  entry_point : String
  shader_defs : List String
  targets : List (Option ColorTargetState)
deriving DecidableEq, Repr

/-- `wgpu::MultisampleState` (`mask: !0` is the all-ones 64-bit mask). -/
structure MultisampleState where
  count : Nat
  mask : Nat
  alpha_to_coverage_enabled : Bool
deriving DecidableEq, Repr

/-- `bevy::render_resource::RenderPipelineDescriptor`.  Bind group
layouts in `layout` are referred to by their numeric ids;
`push_constant_ranges` and `depth_stencil` keep only their shape (the
program leaves both empty). -/
structure RenderPipelineDescriptor where
  label : Option String
  layout : List Nat
  push_constant_ranges : List Unit
  primitive : PrimitiveState
  vertex : VertexState
  fragment : Option FragmentState
  depth_stencil : Option Unit
  multisample : MultisampleState
deriving DecidableEq, Repr

/-- `wgpu::BindGroupLayoutDescriptor`.  The entries are opaque here: the
program only ever passes the empty list. -/
structure BindGroupLayoutDescriptor where
  label : Option String
  entries : List Unit
deriving DecidableEq, Repr

/-- A created `BindGroupLayout`: a device handle (fresh id) remembering
the entries it was created with. -/
structure BindGroupLayout where
  id : Nat
  entries : List Unit
deriving DecidableEq, Repr

/-- `wgpu::BindGroupDescriptor`: a layout reference plus entries. -/
structure BindGroupDescriptor where
  label : Option String
  layout : BindGroupLayout
  entries : List Unit
deriving DecidableEq, Repr

/-- A created `BindGroup`: a device handle remembering the layout id and
the entries it binds. -/
structure BindGroup where
  id : Nat
  layout : Nat
  entries : List Unit
deriving DecidableEq, Repr

/-- `wgpu::BufferUsages::VERTEX` (bit 5 of the usage bitmask). -/
def BufferUsages.VERTEX : Nat := 0x20

/-- `bevy::render_resource::BufferInitDescriptor`. -/
structure BufferInitDescriptor where
  label : Option String
  contents : List Nat
  usage : Nat
deriving DecidableEq, Repr

/-- A created GPU `Buffer`: a device handle remembering the bytes it was
initialised with and its usage flags. -/
structure Buffer where
  id : Nat
  contents : List Nat
  usage : Nat
deriving DecidableEq, Repr

/-- The render device, reduced to the state the model needs: a counter
producing fresh ids for created objects. -/
structure RenderDevice where
  next_id : Nat
deriving DecidableEq, Repr

/-- `RenderDevice::create_bind_group_layout`. -/
def RenderDevice.create_bind_group_layout (d : RenderDevice)
    (desc : BindGroupLayoutDescriptor) : BindGroupLayout × RenderDevice :=
  (⟨d.next_id, desc.entries⟩, ⟨d.next_id + 1⟩)

/-- `RenderDevice::create_buffer_with_data`. -/
def RenderDevice.create_buffer_with_data (d : RenderDevice)
    (desc : BufferInitDescriptor) : Buffer × RenderDevice :=
  (⟨d.next_id, desc.contents, desc.usage⟩, ⟨d.next_id + 1⟩)

/-- `RenderDevice::create_bind_group`. -/
def RenderDevice.create_bind_group (d : RenderDevice)
    (desc : BindGroupDescriptor) : BindGroup × RenderDevice :=
  (⟨d.next_id, desc.layout.id, desc.entries⟩, ⟨d.next_id + 1⟩)

/-- The pipeline cache as seen at pipeline-creation time: the queue of
descriptors submitted with `queue_render_pipeline`.  A
`CachedRenderPipelineId` is the index into this queue. -/
structure PipelineCache where
  queued : List RenderPipelineDescriptor
deriving DecidableEq, Repr

/-- `PipelineCache::queue_render_pipeline`: appends the descriptor and
returns its id (its index in the queue). -/
def PipelineCache.queue_render_pipeline (c : PipelineCache)
    (desc : RenderPipelineDescriptor) : Nat × PipelineCache :=
  (c.queued.length, ⟨c.queued ++ [desc]⟩)

/-- The `MyRenderPipeline` resource (`src/src/main.rs:62-66`). -/
structure MyRenderPipeline where
  bind_group_layout : BindGroupLayout
  render_pipeline : Nat
deriving DecidableEq, Repr

/-- The slice of the main world that `MyRenderPipeline::from_world`
reads: the render device, the asset server (modelled as the map from
asset path to handle id), and the pipeline cache. -/
structure PipelineWorld where
  render_device : RenderDevice
  asset_server : String → Nat
  pipeline_cache : PipelineCache

/-- The `RenderPipelineDescriptor` literal that
`MyRenderPipeline::from_world` passes to `queue_render_pipeline`
(`src/src/main.rs:80-118`), parameterised by the loaded shader handle. -/
def myRenderPipelineDescriptor (shader : Nat) : RenderPipelineDescriptor :=
  { label := some "my_render_pipeline"
    layout := []
    push_constant_ranges := []
    primitive := { PrimitiveState.default with topology := .TriangleStrip }
    vertex :=
      { shader := shader
        entry_point := "vertex"
        shader_defs := []
        buffers :=
          [{ array_stride := 4 * 2
             step_mode := .Vertex
             attributes :=
               [{ format := .Float32x2, offset := 0, shader_location := 0 }] }] }
    fragment := some
      { shader := shader
        entry_point := "fragment"
        shader_defs := []
        targets := some
          { format := TextureFormat.bevy_default
            blend := some .REPLACE
            write_mask := ColorWrites.ALL } :: [] }
    depth_stencil := none
    multisample := { count := 1, mask := 2 ^ 64 - 1, alpha_to_coverage_enabled := false } }

/-- `MyRenderPipeline::from_world` (`src/src/main.rs:68-125`): creates
the empty bind group layout, loads the shader, and queues the render
pipeline descriptor; returns the resource together with the updated
world. -/
def MyRenderPipeline.from_world (w : PipelineWorld) :
    MyRenderPipeline × PipelineWorld :=
  let (bind_group_layout, render_device) :=
    w.render_device.create_bind_group_layout { label := none, entries := [] }
  let shader := w.asset_server "shader.wgsl"
  let (render_pipeline, pipeline_cache) :=
    w.pipeline_cache.queue_render_pipeline (myRenderPipelineDescriptor shader)
  (⟨bind_group_layout, render_pipeline⟩,
    { w with render_device := render_device, pipeline_cache := pipeline_cache })

/-- The descriptor that `from_world` queued, looked up in the resulting
cache by the id stored in the resource. -/
def queuedDescriptorOf (w : PipelineWorld) : Option RenderPipelineDescriptor :=
  ((MyRenderPipeline.from_world w).2.pipeline_cache.queued)[
    (MyRenderPipeline.from_world w).1.render_pipeline]?

/-- The `MyRenderBindings` resource (`src/src/main.rs:127-131`). -/
structure MyRenderBindings where
  vertex_buffer : Buffer
  bind_group : BindGroup
deriving DecidableEq, Repr

/-- The vertex data of `prepare_bind_group` (`src/src/main.rs:139-143`):
`[Vec2::new(-1.0, -1.0), Vec2::new(1.0, -1.0), Vec2::new(1.0, 1.0)]`. -/
def verts : List Vec2 :=
  [Vec2.new f32NegOne f32NegOne, Vec2.new f32One f32NegOne, Vec2.new f32One f32One]

/-- `prepare_bind_group` (`src/src/main.rs:133-158`): uploads the vertex
buffer, builds the empty bind group against the pipeline's layout, and
returns the `MyRenderBindings` resource it inserts, with the updated
device. -/
def prepare_bind_group (pipeline : MyRenderPipeline) (render_device : RenderDevice) :
    MyRenderBindings × RenderDevice :=
  let (vertex_buffer, render_device) :=
    render_device.create_buffer_with_data
      { label := none, contents := castSlice verts, usage := BufferUsages.VERTEX }
  let (bind_group, render_device) :=
    render_device.create_bind_group
      { label := none, layout := pipeline.bind_group_layout, entries := [] }
  (⟨vertex_buffer, bind_group⟩, render_device)

/-- `bevy::render::color::Color` in its RGBA form (components are exact
rationals; the program only uses 0 and 1). -/
structure Color where
  red : ℚ
  green : ℚ
  blue : ℚ
  alpha : ℚ
deriving DecidableEq, Repr

/-- `Color::BLACK`: opaque black, rgba(0, 0, 0, 1). -/
def Color.BLACK : Color := ⟨0, 0, 0, 1⟩

/-- `wgpu::Color`, the target of `Color::BLACK.into()`. -/
structure WgpuColor where
  r : ℚ
  g : ℚ
  b : ℚ
  a : ℚ
deriving DecidableEq, Repr

/-- The `Into<wgpu::Color>` conversion.  Bevy converts to linear RGBA;
on the components this program uses (0 and 1) the sRGB-to-linear map is
the identity, so the conversion copies the channels. -/
def Color.intoWgpu (c : Color) : WgpuColor := ⟨c.red, c.green, c.blue, c.alpha⟩

/-- `wgpu::LoadOp` for color attachments. -/
inductive LoadOp where
  | Clear (color : WgpuColor)
  | Load
deriving DecidableEq, Repr

/-- `wgpu::Operations` for a color attachment. -/
structure Operations where
  load : LoadOp
  store : Bool
deriving DecidableEq, Repr

/-- A `ViewTarget` component: the model keeps the id of its unsampled
(main) texture view. -/
structure ViewTarget where
  texture_view : Nat
deriving DecidableEq, Repr

/-- `wgpu::RenderPassColorAttachment` (view id, optional resolve target,
operations). -/
structure RenderPassColorAttachment where
  view : Nat
  resolve_target : Option Nat
  ops : Operations
deriving DecidableEq, Repr

/-- `ViewTarget::get_unsampled_color_attachment`: an attachment on the
view's unsampled texture with the given operations and no resolve
target. -/
def ViewTarget.get_unsampled_color_attachment (v : ViewTarget) (ops : Operations) :
    RenderPassColorAttachment :=
  ⟨v.texture_view, none, ops⟩

/-- `wgpu::RenderPassDescriptor` (color attachments plus the absent
depth-stencil attachment). -/
structure RenderPassDescriptor where
  label : Option String
  color_attachments : List (Option RenderPassColorAttachment)
  depth_stencil_attachment : Option Unit
deriving DecidableEq, Repr

/-- A compiled render pipeline as handed back by
`PipelineCache::get_render_pipeline`, reduced to an id. -/
structure RenderPipeline where
  id : Nat
deriving DecidableEq, Repr

/-- The commands the node records on the command encoder / render pass.
`Draw` is the non-indexed draw with its vertex and instance ranges
(half-open); `DrawIndexed` is listed so that "non-indexed" is a
meaningful distinction. -/
inductive PassCommand where
  | BeginRenderPass (desc : RenderPassDescriptor)
  | SetVertexBuffer (slot : Nat) (buffer : Buffer)
  | SetBindGroup (index : Nat) (group : BindGroup) (offsets : List Nat)
  | SetPipeline (p : RenderPipeline)
  | Draw (vertices : Nat × Nat) (instances : Nat × Nat)
  | DrawIndexed (indices : Nat × Nat) (base_vertex : Int) (instances : Nat × Nat)
deriving DecidableEq, Repr

/-- `bevy::render_graph::NodeRunError` (the error type of `Node::run`). -/
inductive NodeRunError where
  | OutputSlotError
  | InputSlotError
  | RunSubGraphError
deriving DecidableEq, Repr

deriving instance DecidableEq for Except

/-- Outcome of one execution of `MyRenderNode::run`: either a panic
(`unwrap`, `assert!`, or a missing resource), with the commands recorded
on the encoder before the panic, or a normal return with the recorded
commands and the returned `Result`. -/
inductive RunResult where
  | panicked (recorded : List PassCommand)
  | returned (recorded : List PassCommand) (result : Except NodeRunError Unit)
deriving DecidableEq, Repr

/-- The commands a run outcome recorded on the encoder. -/
def RunResult.recorded : RunResult → List PassCommand
  | .panicked cs => cs
  | .returned cs _ => cs

/-- The slice of the render world that `MyRenderNode::run` reads:
the optional `MyRenderBindings` and `MyRenderPipeline` resources
(`world.resource` panics when absent), the pipeline cache's resolution
map (`get_render_pipeline`), and the entities matched by the node's
`ViewTarget` query, in iteration order. -/
structure RunWorld where
  my_render_bindings : Option MyRenderBindings
  my_render_pipeline : Option MyRenderPipeline
  get_render_pipeline : Nat → Option RenderPipeline
  view_targets : List ViewTarget

/-- `MyRenderNode::run` (`src/src/main.rs:177-219`), following the
source order: fetch the bindings and pipeline resources (panic when
absent), take exactly one view from the query (`unwrap` on the first,
`assert!` that there is no second), begin the render pass with the
clear-to-black attachment, set vertex buffer and bind group, resolve
the cached pipeline (`unwrap` when not compiled), set it, draw 3
vertices and 1 instance, and return `Ok(())`. -/
def MyRenderNode.run (world : RunWorld) : RunResult :=
  match world.my_render_bindings with
  | none => .panicked []
  | some bindings =>
    match world.my_render_pipeline with
    | none => .panicked []
    | some pipeline =>
      match world.view_targets with
      | [] => .panicked []
      | view :: rest =>
        match rest with
        | _ :: _ => .panicked []
        | [] =>
          let pass := PassCommand.BeginRenderPass
            { label := some "my_render_pass"
              color_attachments :=
                [some (view.get_unsampled_color_attachment
                  { load := .Clear Color.BLACK.intoWgpu, store := true })]
              depth_stencil_attachment := none }
          let set_vb := PassCommand.SetVertexBuffer 0 bindings.vertex_buffer
          let set_bg := PassCommand.SetBindGroup 0 bindings.bind_group []
          match world.get_render_pipeline pipeline.render_pipeline with
          | none => .panicked [pass, set_vb, set_bg]
          | some render_pipeline =>
            .returned
              [pass, set_vb, set_bg, .SetPipeline render_pipeline,
                .Draw (0, 3) (0, 1)]
              (.ok ())

/-- Whether a pass command is a draw call (indexed or not). -/
def PassCommand.isDrawCall : PassCommand → Bool
  | .Draw _ _ => true
  | .DrawIndexed _ _ _ => true
  | _ => false

/-- State threaded through the per-frame render schedule: the device,
the current `MyRenderBindings` resource slot, and a counter of how many
times `prepare_bind_group` has executed. -/
structure FrameState where
  render_device : RenderDevice
  my_render_bindings : Option MyRenderBindings
  prepare_runs : Nat
deriving DecidableEq, Repr

/-- One frame of the render app's `Render` schedule, as wired in
`MyRenderPlugin::build` (`src/src/main.rs:46`):
`add_systems(Render, prepare_bind_group.in_set(RenderSet::Prepare))`
places `prepare_bind_group` in the `Render` schedule, which the host
engine executes once per frame; the system has no run condition, so it
runs unconditionally each frame and its `insert_resource` overwrites
the `MyRenderBindings` slot. -/
def renderFrame (pipeline : MyRenderPipeline) (s : FrameState) : FrameState :=
  let (bindings, render_device) := prepare_bind_group pipeline s.render_device
  { render_device := render_device
    my_render_bindings := some bindings
    prepare_runs := s.prepare_runs + 1 }

/-- `n` consecutive frames of the `Render` schedule. -/
def renderFrames (pipeline : MyRenderPipeline) (s : FrameState) : Nat → FrameState
  | 0 => s
  | n + 1 => renderFrame pipeline (renderFrames pipeline s n)

/-! ## Helper lemmas and sample inputs -/

/-- The descriptor `from_world` queues is found in the resulting cache
under the id stored in the resource, and is exactly
`myRenderPipelineDescriptor` at the loaded shader handle. -/
theorem queuedDescriptorOf_eq (w : PipelineWorld) :
    queuedDescriptorOf w =
      some (myRenderPipelineDescriptor (w.asset_server "shader.wgsl")) := by
  simp [queuedDescriptorOf, MyRenderPipeline.from_world,
    PipelineCache.queue_render_pipeline, RenderDevice.create_bind_group_layout,
    List.getElem?_concat_length]

/-- Characterization of the completing executions of `MyRenderNode::run`:
it returns (rather than panics) exactly when both resources are present,
the query yields exactly one view, and the cached pipeline has resolved;
the recorded commands and the result are then fixed. -/
theorem run_returned_iff (w : RunWorld) (cmds : List PassCommand)
    (r : Except NodeRunError Unit) :
    MyRenderNode.run w = .returned cmds r ↔
      ∃ bindings pipeline view rp,
        w.my_render_bindings = some bindings ∧
        w.my_render_pipeline = some pipeline ∧
        w.view_targets = [view] ∧
        w.get_render_pipeline pipeline.render_pipeline = some rp ∧
        cmds =
          [.BeginRenderPass
              { label := some "my_render_pass"
                color_attachments :=
                  [some (view.get_unsampled_color_attachment
                    { load := .Clear Color.BLACK.intoWgpu, store := true })]
                depth_stencil_attachment := none },
            .SetVertexBuffer 0 bindings.vertex_buffer,
            .SetBindGroup 0 bindings.bind_group [],
            .SetPipeline rp,
            .Draw (0, 3) (0, 1)] ∧
        r = .ok () := by
  rcases w with ⟨b, p, g, vs⟩
  cases b with
  | none => simp [MyRenderNode.run]
  | some bindings =>
    cases p with
    | none => simp [MyRenderNode.run]
    | some pipeline =>
      rcases vs with _ | ⟨v, _ | ⟨w, rest⟩⟩
      · simp [MyRenderNode.run]
      · cases hg : g pipeline.render_pipeline with
        | none => simp [MyRenderNode.run, hg]
        | some rp => simp [MyRenderNode.run, hg, eq_comm, and_assoc]
      · simp [MyRenderNode.run]

/-- A render world in which every precondition of `run` holds. -/
def sampleWorld : RunWorld :=
  { my_render_bindings :=
      some ⟨⟨0, castSlice verts, BufferUsages.VERTEX⟩, ⟨1, 2, []⟩⟩
    my_render_pipeline := some ⟨⟨2, []⟩, 0⟩
    get_render_pipeline := fun _ => some ⟨7⟩
    view_targets := [⟨5⟩] }

/-- `sampleWorld` with a pipeline cache that has not resolved any
pipeline yet. -/
def sampleWorldUnresolved : RunWorld :=
  { sampleWorld with get_render_pipeline := fun _ => none }

/-- `sampleWorld` with no `ViewTarget` entity. -/
def sampleWorldNoViews : RunWorld :=
  { sampleWorld with view_targets := [] }

/-- The color attachment `run` builds for `sampleWorld`. -/
def sampleAttachment : RenderPassColorAttachment :=
  ⟨5, none, { load := .Clear ⟨0, 0, 0, 1⟩, store := true }⟩

/-- The render pass descriptor `run` builds for `sampleWorld`. -/
def sampleDescriptor : RenderPassDescriptor :=
  { label := some "my_render_pass"
    color_attachments := [some sampleAttachment]
    depth_stencil_attachment := none }

/-! ## Claim theorems -/

/-- C1: every execution of `MyRenderNode::run` that completes records
exactly one draw call among its commands, and it is the non-indexed
`draw(0..3, 0..1)`: 3 vertices, 1 instance. -/
theorem run_single_draw (w : RunWorld) (cmds : List PassCommand)
    (r : Except NodeRunError Unit) (h : MyRenderNode.run w = .returned cmds r) :
    cmds.filter PassCommand.isDrawCall = [.Draw (0, 3) (0, 1)] := by
  rcases (run_returned_iff w cmds r).mp h with ⟨b, p, v, rp, -, -, -, -, hc, -⟩
  subst hc
  rfl

/-- Witness for C1 at `sampleWorld`. -/
theorem run_single_draw_witness :
    ∃ cmds r, MyRenderNode.run sampleWorld = .returned cmds r ∧
      cmds.filter PassCommand.isDrawCall = [.Draw (0, 3) (0, 1)] :=
  ⟨_, _, rfl, run_single_draw sampleWorld _ _ rfl⟩

/-- C2: the vertex buffer uploaded by `prepare_bind_group` holds exactly
the raw bytes of the three vertices, 8 bytes per vertex and 24 bytes in
all; decoding the stored `f32` pairs gives the positions (-1,-1), (1,-1),
(1,1); and the descriptor queued by the pipeline builder uses
triangle-strip topology. -/
theorem vertex_buffer_and_topology (pipeline : MyRenderPipeline)
    (dev : RenderDevice) :
    (prepare_bind_group pipeline dev).1.vertex_buffer.contents = castSlice verts ∧
    verts.map (fun v => v.bytes.length) = [8, 8, 8] ∧
    (castSlice verts).length = 24 ∧
    verts.map (fun v => (v.x.toRat, v.y.toRat)) =
      [((-1 : ℚ), (-1 : ℚ)), ((1 : ℚ), (-1 : ℚ)), ((1 : ℚ), (1 : ℚ))] ∧
    ∀ w : PipelineWorld, ∃ d, queuedDescriptorOf w = some d ∧
      d.primitive.topology = .TriangleStrip := by
  refine ⟨rfl, by decide, by decide, ?_, fun w => ⟨_, queuedDescriptorOf_eq w, rfl⟩⟩
  norm_num [verts, Vec2.new, F32.toRat, f32NegOne, f32One]

/-- C3: every render pass that `run` opens (whether or not the execution
later panics) clears its color attachment to opaque black, rgba(0,0,0,1),
with store enabled. -/
theorem run_pass_clears_to_black (w : RunWorld) (d : RenderPassDescriptor)
    (a : RenderPassColorAttachment)
    (hd : PassCommand.BeginRenderPass d ∈ (MyRenderNode.run w).recorded)
    (ha : some a ∈ d.color_attachments) :
    a.ops = { load := .Clear ⟨0, 0, 0, 1⟩, store := true } := by
  rcases w with ⟨b, p, g, vs⟩
  cases b with
  | none => simp [MyRenderNode.run, RunResult.recorded] at hd
  | some bindings =>
    cases p with
    | none => simp [MyRenderNode.run, RunResult.recorded] at hd
    | some pipeline =>
      rcases vs with _ | ⟨v, _ | ⟨u, rest⟩⟩
      · simp [MyRenderNode.run, RunResult.recorded] at hd
      · cases hg : g pipeline.render_pipeline with
        | none =>
          simp [MyRenderNode.run, hg, RunResult.recorded] at hd
          subst hd
          simp [ViewTarget.get_unsampled_color_attachment] at ha
          subst ha
          rfl
        | some rp =>
          simp [MyRenderNode.run, hg, RunResult.recorded] at hd
          subst hd
          simp [ViewTarget.get_unsampled_color_attachment] at ha
          subst ha
          rfl
      · simp [MyRenderNode.run, RunResult.recorded] at hd

/-- Witness for C3 at `sampleWorld` and the pass it records. -/
theorem run_pass_clears_to_black_witness :
    sampleAttachment.ops = { load := .Clear ⟨0, 0, 0, 1⟩, store := true } :=
  run_pass_clears_to_black sampleWorld sampleDescriptor sampleAttachment
    (List.Mem.head _) (List.Mem.head _)

/-- C4: when the pipeline cache has no resolved pipeline for the
resource's cached id, `run` panics (aborting the frame) and its recorded
commands contain no draw call of any kind — no retry, no partial
rendering. -/
theorem unresolved_pipeline_aborts (w : RunWorld) (p : MyRenderPipeline)
    (hp : w.my_render_pipeline = some p)
    (hg : w.get_render_pipeline p.render_pipeline = none) :
    ∃ cmds, MyRenderNode.run w = .panicked cmds ∧
      cmds.filter PassCommand.isDrawCall = [] := by
  rcases w with ⟨b, pp, g, vs⟩
  dsimp only at hp hg
  subst hp
  cases b with
  | none => exact ⟨[], rfl, rfl⟩
  | some bindings =>
    rcases vs with _ | ⟨v, _ | ⟨u, rest⟩⟩
    · exact ⟨[], rfl, rfl⟩
    · refine
        ⟨[.BeginRenderPass
            { label := some "my_render_pass"
              color_attachments :=
                [some (v.get_unsampled_color_attachment
                  { load := .Clear Color.BLACK.intoWgpu, store := true })]
              depth_stencil_attachment := none },
          .SetVertexBuffer 0 bindings.vertex_buffer,
          .SetBindGroup 0 bindings.bind_group []], ?_, rfl⟩
      simp [MyRenderNode.run, hg]
    · exact ⟨[], rfl, rfl⟩

/-- Witness for C4 at `sampleWorldUnresolved`. -/
theorem unresolved_pipeline_aborts_witness :
    ∃ cmds, MyRenderNode.run sampleWorldUnresolved = .panicked cmds ∧
      cmds.filter PassCommand.isDrawCall = [] :=
  unresolved_pipeline_aborts sampleWorldUnresolved ⟨⟨2, []⟩, 0⟩ rfl rfl

/-- C9: whenever the node's query does not match exactly one
`ViewTarget`, `run` panics before recording any command (the `unwrap`
on an empty iterator, or the `assert!` on a second view); in particular
it never returns and never draws. -/
theorem run_requires_single_view (w : RunWorld)
    (h : w.view_targets.length ≠ 1) :
    MyRenderNode.run w = .panicked [] ∧
      ∀ cmds r, MyRenderNode.run w ≠ .returned cmds r := by
  have hrun : MyRenderNode.run w = .panicked [] := by
    rcases w with ⟨b, p, g, vs⟩
    dsimp only at h
    cases b with
    | none => rfl
    | some bindings =>
      cases p with
      | none => rfl
      | some pipeline =>
        rcases vs with _ | ⟨v, _ | ⟨u, rest⟩⟩
        · rfl
        · exact absurd rfl h
        · rfl
  exact ⟨hrun, fun cmds r hr => by rw [hrun] at hr; exact RunResult.noConfusion hr⟩

/-- Witness for C9 at `sampleWorldNoViews` (zero views). -/
theorem run_requires_single_view_witness :
    MyRenderNode.run sampleWorldNoViews = .panicked [] ∧
      ∀ cmds r, MyRenderNode.run sampleWorldNoViews ≠ .returned cmds r :=
  run_requires_single_view sampleWorldNoViews (by decide)

/-- C10: `run` never returns an error value — whenever it returns at
all, the result is `Ok(())`; every failure is a panic, not a
`NodeRunError`. -/
theorem run_never_returns_error (w : RunWorld) (cmds : List PassCommand)
    (r : Except NodeRunError Unit) (h : MyRenderNode.run w = .returned cmds r) :
    r = .ok () := by
  rcases (run_returned_iff w cmds r).mp h with ⟨-, -, -, -, -, -, -, -, -, hr⟩
  exact hr

/-- Witness for C10 at `sampleWorld`. -/
theorem run_never_returns_error_witness :
    ∃ cmds r, MyRenderNode.run sampleWorld = .returned cmds r ∧ r = .ok () :=
  ⟨_, _, rfl, run_never_returns_error sampleWorld _ _ rfl⟩

/-- A concrete pipeline resource for the frame-schedule counterexample. -/
def samplePipeline : MyRenderPipeline := ⟨⟨0, []⟩, 0⟩

/-- A concrete render-app state before the first frame. -/
def sampleFrameStart : FrameState := ⟨⟨1⟩, none, 0⟩

/-- C5 counterexample: after two frames of the `Render` schedule,
`prepare_bind_group` has executed twice — not once — and the
`MyRenderBindings` slot no longer holds the value the first frame
installed: the system is scheduled per frame and replaces the resource
each time, contradicting "runs exactly once ... only read, never mutated
or replaced, after that initial setup". -/
theorem prepare_not_once_counterexample :
    (renderFrames samplePipeline sampleFrameStart 2).prepare_runs = 2 ∧
      (renderFrames samplePipeline sampleFrameStart 2).my_render_bindings ≠
        (renderFrames samplePipeline sampleFrameStart 1).my_render_bindings := by
  decide

/-- C5 amended: `prepare_bind_group` runs once per frame of the `Render`
schedule, and each frame recreates the vertex buffer and bind group and
overwrites the `MyRenderBindings` slot with the freshly created pair. -/
theorem prepare_runs_once_per_frame (p : MyRenderPipeline) (s : FrameState)
    (n : Nat) :
    (renderFrames p s n).prepare_runs = s.prepare_runs + n ∧
      (renderFrames p s (n + 1)).my_render_bindings =
        some (prepare_bind_group p (renderFrames p s n).render_device).1 := by
  constructor
  · induction n with
    | zero => rfl
    | succ k ih =>
      simp only [renderFrames, renderFrame, ih]
      omega
  · simp only [renderFrames, renderFrame]

/-- C6: pipeline creation is idempotent — for any two invocations of
`MyRenderPipeline::from_world` (over any world states), the queued
descriptors agree on the vertex buffer layout, the primitive topology,
and the color target formats. -/
theorem from_world_idempotent (w₁ w₂ : PipelineWorld) :
    ∃ d₁ d₂, queuedDescriptorOf w₁ = some d₁ ∧ queuedDescriptorOf w₂ = some d₂ ∧
      d₁.vertex.buffers = d₂.vertex.buffers ∧
      d₁.primitive.topology = d₂.primitive.topology ∧
      d₁.fragment.map (fun f => f.targets.map (Option.map ColorTargetState.format)) =
        d₂.fragment.map (fun f => f.targets.map (Option.map ColorTargetState.format)) :=
  ⟨_, _, queuedDescriptorOf_eq w₁, queuedDescriptorOf_eq w₂, rfl, rfl, rfl⟩

/-- C7: the queued descriptor's vertex stage uses entry point `vertex`,
its fragment stage uses entry point `fragment`, and the vertex stage
consumes exactly one `Float32x2` attribute at shader location 0, offset
0, with per-vertex step mode and an 8-byte array stride. -/
theorem pipeline_shader_interface (w : PipelineWorld) :
    ∃ d, queuedDescriptorOf w = some d ∧
      d.vertex.entry_point = "vertex" ∧
      (∃ f, d.fragment = some f ∧ f.entry_point = "fragment") ∧
      d.vertex.buffers =
        [{ array_stride := 8
           step_mode := .Vertex
           attributes := [{ format := .Float32x2, offset := 0, shader_location := 0 }] }] :=
  ⟨_, queuedDescriptorOf_eq w, rfl, ⟨_, rfl, rfl⟩, rfl⟩

/-- C8: the bind group layout created by `from_world` has zero entries,
and the bind group `prepare_bind_group` builds against it binds no
resources (empty entries) and refers to that layout. -/
theorem empty_bind_group_layout (w : PipelineWorld) (pl : MyRenderPipeline)
    (dev : RenderDevice) :
    (MyRenderPipeline.from_world w).1.bind_group_layout.entries = [] ∧
    (prepare_bind_group pl dev).1.bind_group.entries = [] ∧
    (prepare_bind_group pl dev).1.bind_group.layout = pl.bind_group_layout.id :=
  ⟨rfl, rfl, rfl⟩
